import Mathlib

/-!
# Auth0 role manager: embedding of `role_manager.go`

The adapter keeps two Go maps (`nameToIDMap`, `idToNameMap`) and two client
sessions, and answers role queries by calling the Auth0 Authorization
Extension.  The remote service is not part of the repository: it is a
parameter of the model (`Service`), a state machine over an arbitrary state
type whose four endpoints return the Go pair `(value, error)`.

Every operation is a function from the adapter state and the world (remote
state plus the chronological trace of table lookups and remote calls) to the
returned Go values, the adapter state afterwards and the world afterwards.

Not modelled: nil client pointers (a `*auth0.Auth0` is a session handle here),
and the `util.LogPrintf` lines of `loadMapping`.
-/

namespace Auth0RoleManager

/-! ## Go values -/

/-- A Go `error` value, identified by the text its `Error()` method returns.
`nil` is `none` in `Option GoError`. -/
structure GoError where
  msg : String
  deriving DecidableEq, Repr

/-- The call `errors.New(text)` of the Go standard library. -/
def errorsNew (text : String) : GoError := ⟨text⟩

/-- A Go `map[string]string`, as an association list with at most one entry
per key as long as it is only changed through `GoMap.set`. -/
abbrev GoMap := List (String × String)

/-- The index expression `m[k]` in its comma-ok form: `none` when `k` is not a
key. -/
def GoMap.get : GoMap → String → Option String
  | [], _ => none
  | (k, v) :: m, x => if x = k then some v else GoMap.get m x

/-- The assignment `m[k] = v`: overwrites the entry of `k` when there is one,
adds an entry otherwise. -/
def GoMap.set : GoMap → String → String → GoMap
  | [], k, v => [(k, v)]
  | (k', v') :: m, k, v => if k = k' then (k, v) :: m else (k', v') :: GoMap.set m k v

/-! ## Types of the vendor SDK used by the adapter -/

/-- Modelled from the spec: the SDK type `auth0.User` is not in the repository;
the adapter reads its fields `ID` and `Email` (both stored in a
`map[string]string`, hence strings). -/
structure User where
  ID : String
  Email : String
  deriving DecidableEq, Repr

/-- Modelled from the spec: the SDK type `auth0.Group` is not in the
repository; the adapter reads its fields `ID` and `Name`. -/
structure Group where
  ID : String
  Name : String
  deriving DecidableEq, Repr

/-- Modelled from the spec: the value returned by `Groups.GetMembers` is not in
the repository; the adapter reads its field `Users`. -/
structure GroupMembers where
  Users : List User
  deriving DecidableEq, Repr

/-- Modelled from the spec: a client session `*auth0.Auth0`, identified by the
audience it was authenticated for. -/
structure Auth0 where
  audience : String
  deriving DecidableEq, Repr

/-! ## The remote service and the world -/

/-- What the adapter does that is visible outside its return values: a lookup
in `nameToIDMap`, or one of the four remote calls. -/
inductive Event where
  | nameToIDLookup (key : String)
  | usersGetAll (client : Auth0)
  | groupsGetAll (client : Auth0)
  | usersGetAllGroups (client : Auth0) (id : String)
  | groupsGetMembers (client : Auth0) (id : String)
  deriving DecidableEq, Repr

/-- Whether an event is a call of the remote service. -/
def Event.isRemote : Event → Bool
  | .nameToIDLookup _ => false
  | _ => true

/-- The remote calls of a trace, in order. -/
def remoteCalls (trace : List Event) : List Event := trace.filter Event.isRemote

/-- An arbitrary behaviour of the remote service: each endpoint maps the remote
state, the calling session and its argument to the Go pair `(value, error)` and
the next remote state.  Nothing relates two calls, so a service may answer the
same request differently each time. -/
structure Service (σ : Type) where
  usersGetAll : σ → Auth0 → (List User × Option GoError) × σ
  groupsGetAll : σ → Auth0 → (List Group × Option GoError) × σ
  usersGetAllGroups : σ → Auth0 → String → (List Group × Option GoError) × σ
  groupsGetMembers : σ → Auth0 → String → (GroupMembers × Option GoError) × σ

/-- The world outside the adapter: the remote state and the trace so far. -/
structure World (σ : Type) where
  remote : σ
  trace : List Event

/-- Appends an event to the trace. -/
def World.record {σ : Type} (w : World σ) (e : Event) : World σ :=
  { w with trace := w.trace ++ [e] }

/-! ## The adapter -/

/-- The struct `RoleManager`. -/
structure RoleManager where
  clientID : String
  clientSecret : String
  audience : String
  tenant : String
  apiEndpoint : String
  nameToIDMap : GoMap
  idToNameMap : GoMap
  mgmtClient : Auth0
  authzClient : Auth0
  deriving DecidableEq, Repr

/-- The outcome of a method call: the returned Go values, the adapter state
afterwards and the world afterwards. -/
structure Out (σ : Type) (α : Type) where
  ret : α
  rm : RoleManager
  world : World σ

/-- The first loop of `loadMapping`: one pair of assignments per user. -/
def loadUsers (rm : RoleManager) (users : List User) : RoleManager :=
  users.foldl
    (fun rm user =>
      { rm with
        nameToIDMap := rm.nameToIDMap.set user.Email user.ID
        idToNameMap := rm.idToNameMap.set user.ID user.Email })
    rm

/-- The second loop of `loadMapping`: one pair of assignments per group. -/
def loadGroups (rm : RoleManager) (groups : List Group) : RoleManager :=
  groups.foldl
    (fun rm group =>
      { rm with
        nameToIDMap := rm.nameToIDMap.set group.Name group.ID
        idToNameMap := rm.idToNameMap.set group.ID group.Name })
    rm

/-- The method `loadMapping`: fetches all users, then all groups, discarding
both errors, and records every (name, ID) pair in both tables. -/
def loadMapping {σ : Type} (svc : Service σ) (rm : RoleManager) (w : World σ) :
    Out σ Unit :=
  let w1 := w.record (.usersGetAll rm.mgmtClient)
  let r1 := svc.usersGetAll w1.remote rm.mgmtClient
  let users := r1.1.1
  let w2 : World σ := { w1 with remote := r1.2 }
  let rm1 := loadUsers rm users
  let w3 := w2.record (.groupsGetAll rm1.authzClient)
  let r2 := svc.groupsGetAll w3.remote rm1.authzClient
  let groups := r2.1.1
  let w4 : World σ := { w3 with remote := r2.2 }
  let rm2 := loadGroups rm1 groups
  { ret := (), rm := rm2, world := w4 }

/-- The loop of `getAuth0UserGroups`: appends each group name to `res`. -/
def collectGroupNames (res : List String) (groups : List Group) : List String :=
  groups.foldl (fun res group => res ++ [group.Name]) res

/-- The loop of `getAuth0GroupUsers`: appends each member email to `res`. -/
def collectUserEmails (res : List String) (users : List User) : List String :=
  users.foldl (fun res user => res ++ [user.Email]) res

/-- The method `getAuth0UserGroups`.  A nil slice is `none`. -/
def getAuth0UserGroups {σ : Type} (svc : Service σ) (rm : RoleManager) (w : World σ)
    (name : String) : Out σ (Option (List String) × Option GoError) :=
  let res : List String := []
  let w1 := w.record (.nameToIDLookup name)
  match rm.nameToIDMap.get name with
  | none => { ret := (none, some (errorsNew "ID not found for the user")), rm := rm, world := w1 }
  | some _ =>
    let w2 := w1.record (.nameToIDLookup name)
    let id := (rm.nameToIDMap.get name).getD ""
    let w3 := w2.record (.usersGetAllGroups rm.authzClient id)
    let r := svc.usersGetAllGroups w3.remote rm.authzClient id
    let w4 : World σ := { w3 with remote := r.2 }
    match r.1.2 with
    | some err => { ret := (none, some err), rm := rm, world := w4 }
    | none => { ret := (some (collectGroupNames res r.1.1), none), rm := rm, world := w4 }

/-- The method `getAuth0GroupUsers`.  A nil slice is `none`. -/
def getAuth0GroupUsers {σ : Type} (svc : Service σ) (rm : RoleManager) (w : World σ)
    (name : String) : Out σ (Option (List String) × Option GoError) :=
  let res : List String := []
  let w1 := w.record (.nameToIDLookup name)
  match rm.nameToIDMap.get name with
  | none => { ret := (none, some (errorsNew "ID not found for the role")), rm := rm, world := w1 }
  | some _ =>
    let w2 := w1.record (.nameToIDLookup name)
    let id := (rm.nameToIDMap.get name).getD ""
    let w3 := w2.record (.groupsGetMembers rm.authzClient id)
    let r := svc.groupsGetMembers w3.remote rm.authzClient id
    let w4 : World σ := { w3 with remote := r.2 }
    match r.1.2 with
    | some err => { ret := (none, some err), rm := rm, world := w4 }
    | none => { ret := (some (collectUserEmails res r.1.1.Users), none), rm := rm, world := w4 }

/-- The method `Clear`. -/
def Clear {σ : Type} (_svc : Service σ) (rm : RoleManager) (w : World σ) :
    Out σ (Option GoError) :=
  { ret := none, rm := rm, world := w }

/-- The method `AddLink`. -/
def AddLink {σ : Type} (_svc : Service σ) (rm : RoleManager) (w : World σ)
    (_name1 _name2 : String) (_domain : List String) : Out σ (Option GoError) :=
  { ret := some (errorsNew "not implemented"), rm := rm, world := w }

/-- The method `DeleteLink`. -/
def DeleteLink {σ : Type} (_svc : Service σ) (rm : RoleManager) (w : World σ)
    (_name1 _name2 : String) (_domain : List String) : Out σ (Option GoError) :=
  { ret := some (errorsNew "not implemented"), rm := rm, world := w }

/-- The method `GetRoles`. -/
def GetRoles {σ : Type} (svc : Service σ) (rm : RoleManager) (w : World σ)
    (name : String) (domain : List String) : Out σ (Option (List String) × Option GoError) :=
  if domain.length ≥ 1 then
    { ret := (none, some (errorsNew "error: domain should not be used")), rm := rm, world := w }
  else
    getAuth0UserGroups svc rm w name

/-- The method `GetUsers`. -/
def GetUsers {σ : Type} (svc : Service σ) (rm : RoleManager) (w : World σ)
    (name : String) (domain : List String) : Out σ (Option (List String) × Option GoError) :=
  if domain.length ≥ 1 then
    { ret := (none, some (errorsNew "error: domain should not be used")), rm := rm, world := w }
  else
    getAuth0GroupUsers svc rm w name

/-- The search loop of `HasLink`: returns at the first role equal to `name2`. -/
def searchRoles (name2 : String) : List String → Bool
  | [] => false
  | role :: roles => if role = name2 then true else searchRoles name2 roles

/-- The method `HasLink`.  It calls `GetRoles(name1)` with no domain argument;
ranging over a nil slice runs the loop zero times. -/
def HasLink {σ : Type} (svc : Service σ) (rm : RoleManager) (w : World σ)
    (name1 name2 : String) (domain : List String) : Out σ (Bool × Option GoError) :=
  if domain.length ≥ 1 then
    { ret := (false, some (errorsNew "error: domain should not be used")), rm := rm, world := w }
  else
    let r := GetRoles svc rm w name1 []
    match r.ret.2 with
    | some err => { ret := (false, some err), rm := r.rm, world := r.world }
    | none => { ret := (searchRoles name2 (r.ret.1.getD []), none), rm := r.rm, world := r.world }

/-- The method `PrintRoles`. -/
def PrintRoles {σ : Type} (_svc : Service σ) (rm : RoleManager) (w : World σ) :
    Out σ (Option GoError) :=
  { ret := some (errorsNew "not implemented"), rm := rm, world := w }

/-! ## Specification vocabulary -/

/-- No remote call happened between two worlds: the remote state is the same
and the trace gained no remote call. -/
def NoRemoteCall {σ : Type} (w w' : World σ) : Prop :=
  w'.remote = w.remote ∧ remoteCalls w'.trace = remoteCalls w.trace

/-- The (name, ID) pairs of a user list followed by those of a group list, in
the order `loadMapping` records them. -/
def entries (users : List User) (groups : List Group) : List (String × String) :=
  users.map (fun user => (user.Email, user.ID)) ++ groups.map (fun group => (group.Name, group.ID))

/-- Names and IDs correspond one to one in a list of (name, ID) pairs: two
entries have the same name exactly when they have the same ID. -/
def OneToOne (l : List (String × String)) : Prop :=
  ∀ p ∈ l, ∀ q ∈ l, (p.1 = q.1 ↔ p.2 = q.2)

instance (l : List (String × String)) : Decidable (OneToOne l) := by
  unfold OneToOne; infer_instance

/-- The identity-mapping invariant: the two tables are mutually inverse. -/
def MutuallyInverse (rm : RoleManager) : Prop :=
  (∀ n i, rm.nameToIDMap.get n = some i → rm.idToNameMap.get i = some n) ∧
  (∀ i n, rm.idToNameMap.get i = some n → rm.nameToIDMap.get n = some i)

/-- The world after a resolved fetch: two table lookups, one remote call, and
the remote state the call left. -/
def afterCall {σ : Type} (w : World σ) (name : String) (call : Event) (next : σ) : World σ :=
  { remote := next,
    trace := w.trace ++ [Event.nameToIDLookup name] ++ [Event.nameToIDLookup name] ++ [call] }

/-- The tables hold exactly the (name, ID) pairs of the list `seen`. -/
def Tracks (rm : RoleManager) (seen : List (String × String)) : Prop :=
  (∀ n i, rm.nameToIDMap.get n = some i ↔ (n, i) ∈ seen) ∧
  (∀ n i, rm.idToNameMap.get i = some n ↔ (n, i) ∈ seen)

/-- The ID of the last pair of the list whose name is `n`, if there is one. -/
def lastIDOf (l : List (String × String)) (n : String) : Option String :=
  (l.reverse.find? (fun p => p.1 = n)).map Prod.snd

/-- The name of the last pair of the list whose ID is `i`, if there is one. -/
def lastNameOf (l : List (String × String)) (i : String) : Option String :=
  (l.reverse.find? (fun p => p.2 = i)).map Prod.fst

/-- The tables are what assigning the pairs of `seen` one after the other
leaves: each name maps to the ID of the last pair with that name, each ID to
the name of the last pair with that ID, and nothing else is a key. -/
def LastWriterWins (rm : RoleManager) (seen : List (String × String)) : Prop :=
  (∀ n, rm.nameToIDMap.get n = lastIDOf seen n) ∧
  (∀ i, rm.idToNameMap.get i = lastNameOf seen i)

/-- Two users of one tenant registered under the same email through two
connections. -/
def sharedEmailUsers : List User :=
  [⟨"auth0|1", "carol@test.com"⟩, ⟨"google-oauth2|2", "carol@test.com"⟩]

/-! ## The tenant of the repository's test

Group1 has members alice and bob, Admin has member bob. -/

/-- The users of the test tenant. -/
def tenantUsers : List User :=
  [⟨"auth0|alice", "alice@test.com"⟩, ⟨"auth0|bob", "bob@test.com"⟩]

/-- The groups of the test tenant. -/
def tenantGroups : List Group := [⟨"g-group1", "Group1"⟩, ⟨"g-admin", "Admin"⟩]

/-- A stateless remote service serving the test tenant. -/
def tenantService : Service Unit where
  usersGetAll := fun s _ => ((tenantUsers, none), s)
  groupsGetAll := fun s _ => ((tenantGroups, none), s)
  usersGetAllGroups := fun s _ id =>
    if id = "auth0|alice" then (([⟨"g-group1", "Group1"⟩], none), s)
    else if id = "auth0|bob" then (([⟨"g-group1", "Group1"⟩, ⟨"g-admin", "Admin"⟩], none), s)
    else (([], some (errorsNew "404 user not found")), s)
  groupsGetMembers := fun s _ id =>
    if id = "g-group1" then ((⟨tenantUsers⟩, none), s)
    else if id = "g-admin" then ((⟨[⟨"auth0|bob", "bob@test.com"⟩]⟩, none), s)
    else ((⟨[]⟩, some (errorsNew "404 group not found")), s)

/-- A remote service whose every endpoint fails with the given error. -/
def failingService (e : GoError) : Service Unit where
  usersGetAll := fun s _ => (([], some e), s)
  groupsGetAll := fun s _ => (([], some e), s)
  usersGetAllGroups := fun s _ _ => (([], some e), s)
  groupsGetMembers := fun s _ _ => ((⟨[]⟩, some e), s)

/-- A remote service whose user list and group list are the given ones. -/
def listingService (users : List User) (groups : List Group) : Service Unit where
  usersGetAll := fun s _ => ((users, none), s)
  groupsGetAll := fun s _ => ((groups, none), s)
  usersGetAllGroups := fun s _ _ => (([], none), s)
  groupsGetMembers := fun s _ _ => ((⟨[]⟩, none), s)

/-- The adapter as `NewRoleManager` leaves it before `loadMapping` runs: empty
tables and the two sessions. -/
def freshRoleManager : RoleManager where
  clientID := "your_client_id"
  clientSecret := "your_client_secret"
  audience := ""
  tenant := "your_tenant_name"
  apiEndpoint := "your_base_url_for_auth0_authorization_extension"
  nameToIDMap := []
  idToNameMap := []
  mgmtClient := ⟨"https://your_tenant_name.auth0.com/api/v2/"⟩
  authzClient := ⟨"urn:auth0-authz-api"⟩

/-- The world before anything happened. -/
def initialWorld : World Unit := ⟨(), []⟩

/-- The adapter of the test: `loadMapping` run against the test tenant. -/
def tenantRoleManager : RoleManager := (loadMapping tenantService freshRoleManager initialWorld).rm

/-! ## Lemmas on the Go values -/

theorem GoMap.get_set (m : GoMap) (k v x : String) :
    GoMap.get (GoMap.set m k v) x = if x = k then some v else GoMap.get m x := by
  induction m with
  | nil => simp [GoMap.set, GoMap.get]
  | cons kv m ih =>
    obtain ⟨k', v'⟩ := kv
    by_cases hk : k = k'
    · subst hk
      by_cases hx : x = k <;> simp [GoMap.set, GoMap.get, hx]
    · by_cases hx : x = k
      · subst hx
        simp [GoMap.set, GoMap.get, hk, ih]
      · simp [GoMap.set, GoMap.get, hk, ih, hx]

theorem collectGroupNames_eq (res : List String) (groups : List Group) :
    collectGroupNames res groups = res ++ groups.map Group.Name := by
  induction groups generalizing res with
  | nil => simp [collectGroupNames]
  | cons g gs ih =>
    have h := ih (res ++ [g.Name])
    simp only [collectGroupNames, List.foldl_cons] at h ⊢
    simp [h]

theorem collectUserEmails_eq (res : List String) (users : List User) :
    collectUserEmails res users = res ++ users.map User.Email := by
  induction users generalizing res with
  | nil => simp [collectUserEmails]
  | cons u us ih =>
    have h := ih (res ++ [u.Email])
    simp only [collectUserEmails, List.foldl_cons] at h ⊢
    simp [h]

theorem searchRoles_eq_true_iff (name2 : String) (roles : List String) :
    searchRoles name2 roles = true ↔ name2 ∈ roles := by
  induction roles with
  | nil => simp [searchRoles]
  | cons r rs ih =>
    by_cases h : r = name2
    · simp [searchRoles, h]
    · have h' : ¬ name2 = r := fun e => h e.symm
      simp [searchRoles, h, h', ih]

theorem remoteCalls_lookup (tr : List Event) (key : String) :
    remoteCalls (tr ++ [Event.nameToIDLookup key]) = remoteCalls tr := by
  simp [remoteCalls, List.filter_append, Event.isRemote]

theorem remoteCalls_afterCall {σ : Type} (w : World σ) (name : String) (call : Event) (next : σ)
    (hc : call.isRemote = true) :
    remoteCalls (afterCall w name call next).trace = remoteCalls w.trace ++ [call] := by
  have hl : ∀ key, Event.isRemote (Event.nameToIDLookup key) = false := fun _ => rfl
  simp [afterCall, remoteCalls, List.filter_append, hl, hc]

theorem afterCall_remote {σ : Type} (w : World σ) (name : String) (call : Event) (next : σ) :
    (afterCall w name call next).remote = next := rfl

/-! ## The three outcomes of the two fetching helpers -/

section helpers

variable {σ : Type} (svc : Service σ) (rm : RoleManager) (w : World σ)

theorem getAuth0UserGroups_unresolved (name : String) (h : rm.nameToIDMap.get name = none) :
    getAuth0UserGroups svc rm w name =
      { ret := (none, some (errorsNew "ID not found for the user")), rm := rm,
        world := w.record (.nameToIDLookup name) } := by
  simp [getAuth0UserGroups, h]

theorem getAuth0UserGroups_error (name id : String) (e : GoError)
    (h : rm.nameToIDMap.get name = some id)
    (he : (svc.usersGetAllGroups w.remote rm.authzClient id).1.2 = some e) :
    getAuth0UserGroups svc rm w name =
      { ret := (none, some e), rm := rm,
        world := afterCall w name (.usersGetAllGroups rm.authzClient id)
          (svc.usersGetAllGroups w.remote rm.authzClient id).2 } := by
  simp [getAuth0UserGroups, h, World.record, he, afterCall]

theorem getAuth0UserGroups_ok (name id : String)
    (h : rm.nameToIDMap.get name = some id)
    (he : (svc.usersGetAllGroups w.remote rm.authzClient id).1.2 = none) :
    getAuth0UserGroups svc rm w name =
      { ret := (some ((svc.usersGetAllGroups w.remote rm.authzClient id).1.1.map Group.Name), none),
        rm := rm,
        world := afterCall w name (.usersGetAllGroups rm.authzClient id)
          (svc.usersGetAllGroups w.remote rm.authzClient id).2 } := by
  simp [getAuth0UserGroups, h, World.record, he, afterCall, collectGroupNames_eq]

theorem getAuth0GroupUsers_unresolved (name : String) (h : rm.nameToIDMap.get name = none) :
    getAuth0GroupUsers svc rm w name =
      { ret := (none, some (errorsNew "ID not found for the role")), rm := rm,
        world := w.record (.nameToIDLookup name) } := by
  simp [getAuth0GroupUsers, h]

theorem getAuth0GroupUsers_error (name id : String) (e : GoError)
    (h : rm.nameToIDMap.get name = some id)
    (he : (svc.groupsGetMembers w.remote rm.authzClient id).1.2 = some e) :
    getAuth0GroupUsers svc rm w name =
      { ret := (none, some e), rm := rm,
        world := afterCall w name (.groupsGetMembers rm.authzClient id)
          (svc.groupsGetMembers w.remote rm.authzClient id).2 } := by
  simp [getAuth0GroupUsers, h, World.record, he, afterCall]

theorem getAuth0GroupUsers_ok (name id : String)
    (h : rm.nameToIDMap.get name = some id)
    (he : (svc.groupsGetMembers w.remote rm.authzClient id).1.2 = none) :
    getAuth0GroupUsers svc rm w name =
      { ret := (some ((svc.groupsGetMembers w.remote rm.authzClient id).1.1.Users.map User.Email),
          none),
        rm := rm,
        world := afterCall w name (.groupsGetMembers rm.authzClient id)
          (svc.groupsGetMembers w.remote rm.authzClient id).2 } := by
  simp [getAuth0GroupUsers, h, World.record, he, afterCall, collectUserEmails_eq]

theorem GetRoles_nil (name : String) :
    GetRoles svc rm w name [] = getAuth0UserGroups svc rm w name := by
  simp [GetRoles]

theorem GetUsers_nil (name : String) :
    GetUsers svc rm w name [] = getAuth0GroupUsers svc rm w name := by
  simp [GetUsers]

theorem HasLink_nil (name1 name2 : String) :
    HasLink svc rm w name1 name2 [] =
      match (getAuth0UserGroups svc rm w name1).ret.2 with
      | some err =>
        { ret := (false, some err), rm := (getAuth0UserGroups svc rm w name1).rm,
          world := (getAuth0UserGroups svc rm w name1).world }
      | none =>
        { ret := (searchRoles name2 ((getAuth0UserGroups svc rm w name1).ret.1.getD []), none),
          rm := (getAuth0UserGroups svc rm w name1).rm,
          world := (getAuth0UserGroups svc rm w name1).world } := by
  simp [HasLink, GetRoles]

end helpers

/-! ## Lemmas on `loadMapping` -/

theorem OneToOne.init_snoc {seen : List (String × String)} {p : String × String}
    {l : List (String × String)} (h : OneToOne (seen ++ p :: l)) : OneToOne (seen ++ [p]) := by
  intro a ha b hb
  apply h
  · simp only [List.mem_append, List.mem_cons, List.mem_singleton, List.not_mem_nil,
      or_false] at ha ⊢
    tauto
  · simp only [List.mem_append, List.mem_cons, List.mem_singleton, List.not_mem_nil,
      or_false] at hb ⊢
    tauto

theorem Tracks.set_pair {rm : RoleManager} {seen : List (String × String)} (n0 i0 : String)
    (ht : Tracks rm seen) (h : OneToOne (seen ++ [(n0, i0)])) :
    Tracks
      { rm with
        nameToIDMap := rm.nameToIDMap.set n0 i0
        idToNameMap := rm.idToNameMap.set i0 n0 }
      (seen ++ [(n0, i0)]) := by
  have hlast : (n0, i0) ∈ seen ++ [(n0, i0)] := by simp
  constructor
  · intro n i
    simp only [GoMap.get_set, List.mem_append, List.mem_singleton, Prod.mk.injEq]
    by_cases hn : n = n0
    · subst hn
      simp only [if_true, Option.some.injEq, true_and]
      constructor
      · intro e; exact Or.inr e.symm
      · rintro (hm | e)
        · have := (h (n, i) (by simp [hm]) (n, i0) hlast).1 rfl
          exact this.symm
        · exact e.symm
    · simp only [hn, if_false, false_and, or_false]
      exact ht.1 n i
  · intro n i
    simp only [GoMap.get_set, List.mem_append, List.mem_singleton, Prod.mk.injEq]
    by_cases hi : i = i0
    · subst hi
      simp only [if_true, Option.some.injEq, and_true]
      constructor
      · intro e; exact Or.inr e.symm
      · rintro (hm | e)
        · have := (h (n, i) (by simp [hm]) (n0, i) hlast).2 rfl
          exact this.symm
        · exact e.symm
    · simp only [hi, if_false, and_false, or_false]
      exact ht.2 n i

theorem loadUsers_tracks (users : List User) (rm : RoleManager) (seen : List (String × String))
    (ht : Tracks rm seen)
    (h : OneToOne (seen ++ users.map (fun user => (user.Email, user.ID)))) :
    Tracks (loadUsers rm users) (seen ++ users.map (fun user => (user.Email, user.ID))) := by
  induction users generalizing rm seen with
  | nil => simpa [loadUsers] using ht
  | cons u us ih =>
    simp only [List.map_cons] at h ⊢
    have hstep := Tracks.set_pair u.Email u.ID ht h.init_snoc
    have := ih _ (seen ++ [(u.Email, u.ID)]) hstep (by simpa using h)
    simpa [loadUsers] using this

theorem loadGroups_tracks (groups : List Group) (rm : RoleManager)
    (seen : List (String × String)) (ht : Tracks rm seen)
    (h : OneToOne (seen ++ groups.map (fun group => (group.Name, group.ID)))) :
    Tracks (loadGroups rm groups) (seen ++ groups.map (fun group => (group.Name, group.ID))) := by
  induction groups generalizing rm seen with
  | nil => simpa [loadGroups] using ht
  | cons g gs ih =>
    simp only [List.map_cons] at h ⊢
    have hstep := Tracks.set_pair g.Name g.ID ht h.init_snoc
    have := ih _ (seen ++ [(g.Name, g.ID)]) hstep (by simpa using h)
    simpa [loadGroups] using this

theorem Tracks.mutuallyInverse {rm : RoleManager} {seen : List (String × String)}
    (ht : Tracks rm seen) : MutuallyInverse rm :=
  ⟨fun n i h => (ht.2 n i).2 ((ht.1 n i).1 h), fun i n h => (ht.1 n i).2 ((ht.2 n i).1 h)⟩

theorem loadUsers_authzClient (users : List User) (rm : RoleManager) :
    (loadUsers rm users).authzClient = rm.authzClient := by
  induction users generalizing rm with
  | nil => rfl
  | cons u us ih => simpa [loadUsers] using ih _

theorem loadMapping_rm {σ : Type} (svc : Service σ) (rm : RoleManager) (w : World σ) :
    (loadMapping svc rm w).rm =
      loadGroups (loadUsers rm (svc.usersGetAll w.remote rm.mgmtClient).1.1)
        (svc.groupsGetAll (svc.usersGetAll w.remote rm.mgmtClient).2 rm.authzClient).1.1 := by
  simp [loadMapping, World.record, loadUsers_authzClient]

theorem LastWriterWins.assign_pair {rm : RoleManager} {seen : List (String × String)}
    (n0 i0 : String) (ht : LastWriterWins rm seen) :
    LastWriterWins
      { rm with
        nameToIDMap := rm.nameToIDMap.set n0 i0
        idToNameMap := rm.idToNameMap.set i0 n0 }
      (seen ++ [(n0, i0)]) := by
  constructor
  · intro n
    have h := ht.1 n
    simp only [lastIDOf] at h
    by_cases hn : n = n0
    · subst hn
      simp [GoMap.get_set, lastIDOf, List.find?_cons]
    · have hn' : ¬ n0 = n := fun e => hn e.symm
      simp [GoMap.get_set, lastIDOf, List.find?_cons, hn, hn', h]
  · intro i
    have h := ht.2 i
    simp only [lastNameOf] at h
    by_cases hi : i = i0
    · subst hi
      simp [GoMap.get_set, lastNameOf, List.find?_cons]
    · have hi' : ¬ i0 = i := fun e => hi e.symm
      simp [GoMap.get_set, lastNameOf, List.find?_cons, hi, hi', h]

theorem loadUsers_lastWriter (users : List User) (rm : RoleManager)
    (seen : List (String × String)) (ht : LastWriterWins rm seen) :
    LastWriterWins (loadUsers rm users)
      (seen ++ users.map (fun user => (user.Email, user.ID))) := by
  induction users generalizing rm seen with
  | nil => simpa [loadUsers] using ht
  | cons u us ih =>
    have := ih _ (seen ++ [(u.Email, u.ID)]) (LastWriterWins.assign_pair u.Email u.ID ht)
    simpa [loadUsers] using this

theorem loadGroups_lastWriter (groups : List Group) (rm : RoleManager)
    (seen : List (String × String)) (ht : LastWriterWins rm seen) :
    LastWriterWins (loadGroups rm groups)
      (seen ++ groups.map (fun group => (group.Name, group.ID))) := by
  induction groups generalizing rm seen with
  | nil => simpa [loadGroups] using ht
  | cons g gs ih =>
    have := ih _ (seen ++ [(g.Name, g.ID)]) (LastWriterWins.assign_pair g.Name g.ID ht)
    simpa [loadGroups] using this

theorem getAuth0UserGroups_congr {σ : Type} (svc : Service σ) (rm rm' : RoleManager)
    (w : World σ) (name : String)
    (hk : rm'.nameToIDMap.get name = rm.nameToIDMap.get name)
    (hc : rm'.authzClient = rm.authzClient) :
    (getAuth0UserGroups svc rm' w name).ret = (getAuth0UserGroups svc rm w name).ret ∧
    (getAuth0UserGroups svc rm' w name).world = (getAuth0UserGroups svc rm w name).world := by
  cases h : rm.nameToIDMap.get name with
  | none =>
    rw [getAuth0UserGroups_unresolved svc rm w name h,
      getAuth0UserGroups_unresolved svc rm' w name (hk.trans h)]
    exact ⟨rfl, rfl⟩
  | some id =>
    have h' := hk.trans h
    cases he : (svc.usersGetAllGroups w.remote rm.authzClient id).1.2 with
    | some e =>
      rw [getAuth0UserGroups_error svc rm w name id e h he,
        getAuth0UserGroups_error svc rm' w name id e h' (by rw [hc]; exact he)]
      simp [hc]
    | none =>
      rw [getAuth0UserGroups_ok svc rm w name id h he,
        getAuth0UserGroups_ok svc rm' w name id h' (by rw [hc]; exact he)]
      simp [hc]

/-! ## The claims -/

/-- C1: with no domain qualifier, `HasLink(a, b)` returns true with no error
exactly when `GetRoles(a)` succeeds and `b` is an element of the sequence it
returns; when `GetRoles(a)` succeeds with `roles`, `HasLink(a, b)` returns
whether `b` is an element of `roles` (false on a miss) with no error; whenever
`GetRoles(a)` fails with an error, `HasLink(a, b)` returns false together with
that same error; `GetRoles(a)` does one or the other, and `HasLink` leaves the
adapter and the world as `GetRoles` leaves them; for every adapter state and
every behaviour of the remote service. -/
theorem HasLink_iff_mem_GetRoles {σ : Type} (svc : Service σ) (rm : RoleManager) (w : World σ)
    (a b : String) :
    ((HasLink svc rm w a b []).ret = (true, none) ↔
      ∃ roles, (GetRoles svc rm w a []).ret = (some roles, none) ∧ b ∈ roles) ∧
    (∀ roles, (GetRoles svc rm w a []).ret = (some roles, none) →
      (HasLink svc rm w a b []).ret = (decide (b ∈ roles), none)) ∧
    (∀ e, (GetRoles svc rm w a []).ret.2 = some e →
      (HasLink svc rm w a b []).ret = (false, some e)) ∧
    ((∃ roles, (GetRoles svc rm w a []).ret = (some roles, none)) ∨
      (∃ e, (GetRoles svc rm w a []).ret = (none, some e))) ∧
    (HasLink svc rm w a b []).rm = (GetRoles svc rm w a []).rm ∧
    (HasLink svc rm w a b []).world = (GetRoles svc rm w a []).world := by
  have hdec : ∀ roles : List String, searchRoles b roles = decide (b ∈ roles) := by
    intro roles
    cases hs : searchRoles b roles with
    | true => simp [(searchRoles_eq_true_iff b roles).1 hs]
    | false =>
      have : ¬ b ∈ roles := fun hm => by
        rw [(searchRoles_eq_true_iff b roles).2 hm] at hs
        exact Bool.noConfusion hs
      simp [this]
  rw [HasLink_nil, GetRoles_nil]
  cases h : rm.nameToIDMap.get a with
  | none =>
    rw [getAuth0UserGroups_unresolved svc rm w a h]
    simp
  | some id =>
    cases he : (svc.usersGetAllGroups w.remote rm.authzClient id).1.2 with
    | some e =>
      rw [getAuth0UserGroups_error svc rm w a id e h he]
      simp
    | none =>
      rw [getAuth0UserGroups_ok svc rm w a id h he]
      simp [searchRoles_eq_true_iff, hdec]

/-- C2: with a non-empty list of domain qualifiers, `HasLink`, `GetRoles` and
`GetUsers` each return the failure "error: domain should not be used" (false
for `HasLink`, a nil list for the other two) whatever the names and the adapter
state are, and leave the adapter and the world as they were: the trace gains
neither a table lookup nor a remote call. -/
theorem domain_rejected {σ : Type} (svc : Service σ) (rm : RoleManager) (w : World σ)
    (a b : String) (domain : List String) (h : domain ≠ []) :
    HasLink svc rm w a b domain =
        { ret := (false, some (errorsNew "error: domain should not be used")),
          rm := rm, world := w } ∧
      GetRoles svc rm w a domain =
        { ret := (none, some (errorsNew "error: domain should not be used")),
          rm := rm, world := w } ∧
      GetUsers svc rm w a domain =
        { ret := (none, some (errorsNew "error: domain should not be used")),
          rm := rm, world := w } := by
  have hlen : domain.length ≥ 1 := List.length_pos.mpr h
  simp [HasLink, GetRoles, GetUsers, hlen]

/-- C3: for a name `n` that is not a key of `nameToIDMap` and no domain
qualifier, `GetRoles(n)` and `HasLink(n, b)` fail with "ID not found for the
user" and `GetUsers(n)` fails with "ID not found for the role" (nil list, false
for `HasLink`), and none of them calls the remote service. -/
theorem unresolvable_name_fails {σ : Type} (svc : Service σ) (rm : RoleManager) (w : World σ)
    (n : String) (h : rm.nameToIDMap.get n = none) :
    ((GetRoles svc rm w n []).ret = (none, some (errorsNew "ID not found for the user")) ∧
      NoRemoteCall w (GetRoles svc rm w n []).world) ∧
    ((GetUsers svc rm w n []).ret = (none, some (errorsNew "ID not found for the role")) ∧
      NoRemoteCall w (GetUsers svc rm w n []).world) ∧
    (∀ b, (HasLink svc rm w n b []).ret = (false, some (errorsNew "ID not found for the user")) ∧
      NoRemoteCall w (HasLink svc rm w n b []).world) := by
  refine ⟨?_, ?_, ?_⟩
  · rw [GetRoles_nil, getAuth0UserGroups_unresolved svc rm w n h]
    simp [NoRemoteCall, World.record, remoteCalls_lookup]
  · rw [GetUsers_nil, getAuth0GroupUsers_unresolved svc rm w n h]
    simp [NoRemoteCall, World.record, remoteCalls_lookup]
  · intro b
    rw [HasLink_nil, getAuth0UserGroups_unresolved svc rm w n h]
    simp [NoRemoteCall, World.record, remoteCalls_lookup]

/-- C4: for a name resolved to `id` and no domain qualifier, when the remote
call returns the groups `groups` with no error, `GetRoles(name)` returns exactly
the names of `groups`, and when the remote call returns `members` with no
error, `GetUsers(name)` returns exactly the emails of the users of `members`:
same length, same order, nothing dropped, added, deduplicated or reordered. -/
theorem queries_relay_remote_response {σ : Type} (svc : Service σ) (rm : RoleManager)
    (w : World σ) (name id : String) (h : rm.nameToIDMap.get name = some id) :
    (∀ groups, (svc.usersGetAllGroups w.remote rm.authzClient id).1 = (groups, none) →
      (GetRoles svc rm w name []).ret = (some (groups.map Group.Name), none)) ∧
    (∀ members, (svc.groupsGetMembers w.remote rm.authzClient id).1 = (members, none) →
      (GetUsers svc rm w name []).ret = (some (members.Users.map User.Email), none)) := by
  constructor
  · intro groups hg
    rw [GetRoles_nil, getAuth0UserGroups_ok svc rm w name id h (by rw [hg])]
    simp [hg]
  · intro members hm
    rw [GetUsers_nil, getAuth0GroupUsers_ok svc rm w name id h (by rw [hm])]
    simp [hm]

/-- C5: `AddLink` and `DeleteLink` fail with "not implemented" for every pair
of names and every list of domain qualifiers, `PrintRoles` fails with "not
implemented" in every adapter state, and the three leave the world as it was:
no remote call is made. -/
theorem mutations_not_implemented {σ : Type} (svc : Service σ) (rm : RoleManager) (w : World σ)
    (name1 name2 : String) (domain : List String) :
    ((AddLink svc rm w name1 name2 domain).ret = some (errorsNew "not implemented") ∧
      (AddLink svc rm w name1 name2 domain).world = w) ∧
    ((DeleteLink svc rm w name1 name2 domain).ret = some (errorsNew "not implemented") ∧
      (DeleteLink svc rm w name1 name2 domain).world = w) ∧
    ((PrintRoles svc rm w).ret = some (errorsNew "not implemented") ∧
      (PrintRoles svc rm w).world = w) :=
  ⟨⟨rfl, rfl⟩, ⟨rfl, rfl⟩, ⟨rfl, rfl⟩⟩

/-- C6: for a name resolved to `id` and no domain qualifier, if the remote call
made by `GetRoles` or `HasLink` (the groups of `id`) or by `GetUsers` (the
members of `id`) returns the error `e`, the operation returns exactly `e` with a
nil list (false for `HasLink`), and it made that one remote call and no other:
the remote calls of the trace grow by exactly that call and the remote state
is the one that call left. -/
theorem transport_error_passthrough {σ : Type} (svc : Service σ) (rm : RoleManager)
    (w : World σ) (name id : String) (h : rm.nameToIDMap.get name = some id) :
    (∀ e, (svc.usersGetAllGroups w.remote rm.authzClient id).1.2 = some e →
      ((GetRoles svc rm w name []).ret = (none, some e) ∧
        remoteCalls (GetRoles svc rm w name []).world.trace =
          remoteCalls w.trace ++ [Event.usersGetAllGroups rm.authzClient id] ∧
        (GetRoles svc rm w name []).world.remote =
          (svc.usersGetAllGroups w.remote rm.authzClient id).2) ∧
      (∀ b, (HasLink svc rm w name b []).ret = (false, some e) ∧
        remoteCalls (HasLink svc rm w name b []).world.trace =
          remoteCalls w.trace ++ [Event.usersGetAllGroups rm.authzClient id] ∧
        (HasLink svc rm w name b []).world.remote =
          (svc.usersGetAllGroups w.remote rm.authzClient id).2)) ∧
    (∀ e, (svc.groupsGetMembers w.remote rm.authzClient id).1.2 = some e →
      (GetUsers svc rm w name []).ret = (none, some e) ∧
        remoteCalls (GetUsers svc rm w name []).world.trace =
          remoteCalls w.trace ++ [Event.groupsGetMembers rm.authzClient id] ∧
        (GetUsers svc rm w name []).world.remote =
          (svc.groupsGetMembers w.remote rm.authzClient id).2) := by
  constructor
  · intro e he
    constructor
    · rw [GetRoles_nil, getAuth0UserGroups_error svc rm w name id e h he]
      simp [remoteCalls_afterCall, afterCall_remote, Event.isRemote]
    · intro b
      rw [HasLink_nil, getAuth0UserGroups_error svc rm w name id e h he]
      simp [remoteCalls_afterCall, afterCall_remote, Event.isRemote]
  · intro e he
    rw [GetUsers_nil, getAuth0GroupUsers_error svc rm w name id e h he]
    simp [remoteCalls_afterCall, afterCall_remote, Event.isRemote]

/-- C7: `Clear` returns no error in every adapter state and leaves the adapter
state (both tables, both client sessions) and the world unchanged, so every
query (`HasLink`, `GetRoles`, `GetUsers`) run after `Clear` against a given
remote service gives what it gives when run before it. -/
theorem Clear_is_noop {σ : Type} (svc : Service σ) (rm : RoleManager) (w : World σ) :
    (Clear svc rm w).ret = none ∧ (Clear svc rm w).rm = rm ∧ (Clear svc rm w).world = w ∧
    ∀ (a b : String) (domain : List String),
      HasLink svc (Clear svc rm w).rm (Clear svc rm w).world a b domain =
          HasLink svc rm w a b domain ∧
        GetRoles svc (Clear svc rm w).rm (Clear svc rm w).world a domain =
          GetRoles svc rm w a domain ∧
        GetUsers svc (Clear svc rm w).rm (Clear svc rm w).world a domain =
          GetUsers svc rm w a domain :=
  ⟨rfl, rfl, rfl, fun _ _ _ => ⟨rfl, rfl, rfl⟩⟩

/-- C8, amended: `loadMapping` from empty tables records every pair of the user
list and then of the group list the remote service returns at construction,
with no uniqueness check, a later pair overwriting an earlier one: each name
maps to the ID of the last entry with that name, each ID to the name of the
last entry with that ID, and nothing else is a key.  When names and IDs
correspond one to one in those lists (two entries, users and groups together,
have the same name exactly when they have the same ID), the tables hold
exactly the returned pairs and are mutually inverse.  The two errors of the
remote calls are irrelevant. -/
theorem loadMapping_mutually_inverse {σ : Type} (svc : Service σ) (rm : RoleManager)
    (w : World σ) (users : List User) (groups : List Group)
    (hn : rm.nameToIDMap = []) (hi : rm.idToNameMap = [])
    (hu : (svc.usersGetAll w.remote rm.mgmtClient).1.1 = users)
    (hg : (svc.groupsGetAll (svc.usersGetAll w.remote rm.mgmtClient).2 rm.authzClient).1.1
      = groups) :
    LastWriterWins (loadMapping svc rm w).rm (entries users groups) ∧
    (OneToOne (entries users groups) →
      Tracks (loadMapping svc rm w).rm (entries users groups) ∧
      MutuallyInverse (loadMapping svc rm w).rm) := by
  rw [loadMapping_rm, hu, hg]
  constructor
  · have h0 : LastWriterWins rm [] := by
      constructor <;> intro n <;> simp [hn, hi, GoMap.get, lastIDOf, lastNameOf]
    have h1 := loadUsers_lastWriter users rm [] h0
    exact loadGroups_lastWriter groups (loadUsers rm users) _ h1
  · intro h
    have h0 : Tracks rm [] := by
      constructor <;> intro n i <;> simp [hn, hi, GoMap.get]
    have hU : OneToOne ([] ++ users.map (fun user => (user.Email, user.ID))) := by
      intro p hp q hq
      apply h <;> simp only [entries, List.mem_append, List.nil_append] at * <;> tauto
    have h1 := loadUsers_tracks users rm [] h0 hU
    have h2 := loadGroups_tracks groups (loadUsers rm users) _ h1 (by simpa [entries] using h)
    exact ⟨by simpa [entries] using h2, h2.mutuallyInverse⟩

/-- C9, amended: for every name `n` (a key of `nameToIDMap` or not), every name
`a` and no domain qualifier, `HasLink(a, n)` never looks `n` up and resolves
only `a`.  If `a` is not a key, it returns false with "ID not found for the
user" after one lookup of `a` and no remote call.  If `a` is a key with ID
`id`, it looks `a` up twice, calls the remote service exactly once (the groups
of `id`), and returns false with the error `e` when that call returns `e`,
and otherwise whether `n` is among the names of the returned groups, with no
error.  The outcome is the same for every adapter with the same entry for `a`
and the same session, whatever its table says about `n`. -/
theorem HasLink_resolves_subject_only {σ : Type} (svc : Service σ) (rm : RoleManager)
    (w : World σ) (a n : String) :
    (rm.nameToIDMap.get a = none →
      HasLink svc rm w a n [] =
        { ret := (false, some (errorsNew "ID not found for the user")), rm := rm,
          world := w.record (.nameToIDLookup a) }) ∧
    (∀ id, rm.nameToIDMap.get a = some id →
      (HasLink svc rm w a n []).rm = rm ∧
      (HasLink svc rm w a n []).world =
        afterCall w a (.usersGetAllGroups rm.authzClient id)
          (svc.usersGetAllGroups w.remote rm.authzClient id).2 ∧
      remoteCalls (HasLink svc rm w a n []).world.trace =
        remoteCalls w.trace ++ [Event.usersGetAllGroups rm.authzClient id] ∧
      (∀ e, (svc.usersGetAllGroups w.remote rm.authzClient id).1.2 = some e →
        (HasLink svc rm w a n []).ret = (false, some e)) ∧
      ((svc.usersGetAllGroups w.remote rm.authzClient id).1.2 = none →
        (HasLink svc rm w a n []).ret =
          (decide (n ∈ (svc.usersGetAllGroups w.remote rm.authzClient id).1.1.map Group.Name),
            none))) ∧
    (∀ rm' : RoleManager, rm'.nameToIDMap.get a = rm.nameToIDMap.get a →
      rm'.authzClient = rm.authzClient →
      (HasLink svc rm' w a n []).ret = (HasLink svc rm w a n []).ret ∧
      (HasLink svc rm' w a n []).world = (HasLink svc rm w a n []).world) := by
  have hdec : ∀ roles : List String, searchRoles n roles = decide (n ∈ roles) := by
    intro roles
    cases hs : searchRoles n roles with
    | true => simp [(searchRoles_eq_true_iff n roles).1 hs]
    | false =>
      have : ¬ n ∈ roles := fun hm => by
        rw [(searchRoles_eq_true_iff n roles).2 hm] at hs
        exact Bool.noConfusion hs
      simp [this]
  refine ⟨?_, ?_, ?_⟩
  · intro h
    rw [HasLink_nil, getAuth0UserGroups_unresolved svc rm w a h]
  · intro id h
    cases he : (svc.usersGetAllGroups w.remote rm.authzClient id).1.2 with
    | some e =>
      rw [HasLink_nil, getAuth0UserGroups_error svc rm w a id e h he]
      simp [remoteCalls_afterCall, Event.isRemote]
    | none =>
      rw [HasLink_nil, getAuth0UserGroups_ok svc rm w a id h he]
      simp [remoteCalls_afterCall, Event.isRemote, hdec]
  · intro rm' hk hc
    have key := getAuth0UserGroups_congr svc rm rm' w a hk hc
    rw [HasLink_nil, HasLink_nil, key.1, key.2]
    cases (getAuth0UserGroups svc rm w a).ret.2 <;> exact ⟨rfl, rfl⟩

/-- C10: every operation available after construction (`HasLink`, `GetRoles`,
`GetUsers`, `AddLink`, `DeleteLink`, `Clear`, `PrintRoles`) leaves `nameToIDMap`
and `idToNameMap` exactly as they were, for every adapter state, every
argument list and every behaviour of the remote service, whether it succeeds
or fails. -/
theorem tables_never_written {σ : Type} (svc : Service σ) (rm : RoleManager) (w : World σ)
    (name1 name2 : String) (domain : List String) :
    ((HasLink svc rm w name1 name2 domain).rm.nameToIDMap = rm.nameToIDMap ∧
      (HasLink svc rm w name1 name2 domain).rm.idToNameMap = rm.idToNameMap) ∧
    ((GetRoles svc rm w name1 domain).rm.nameToIDMap = rm.nameToIDMap ∧
      (GetRoles svc rm w name1 domain).rm.idToNameMap = rm.idToNameMap) ∧
    ((GetUsers svc rm w name1 domain).rm.nameToIDMap = rm.nameToIDMap ∧
      (GetUsers svc rm w name1 domain).rm.idToNameMap = rm.idToNameMap) ∧
    ((AddLink svc rm w name1 name2 domain).rm.nameToIDMap = rm.nameToIDMap ∧
      (AddLink svc rm w name1 name2 domain).rm.idToNameMap = rm.idToNameMap) ∧
    ((DeleteLink svc rm w name1 name2 domain).rm.nameToIDMap = rm.nameToIDMap ∧
      (DeleteLink svc rm w name1 name2 domain).rm.idToNameMap = rm.idToNameMap) ∧
    ((Clear svc rm w).rm.nameToIDMap = rm.nameToIDMap ∧
      (Clear svc rm w).rm.idToNameMap = rm.idToNameMap) ∧
    ((PrintRoles svc rm w).rm.nameToIDMap = rm.nameToIDMap ∧
      (PrintRoles svc rm w).rm.idToNameMap = rm.idToNameMap) := by
  have hR : (getAuth0UserGroups svc rm w name1).rm = rm := by
    simp only [getAuth0UserGroups]
    split
    · rfl
    · split <;> rfl
  have hU : (getAuth0GroupUsers svc rm w name1).rm = rm := by
    simp only [getAuth0GroupUsers]
    split
    · rfl
    · split <;> rfl
  have hGR : (GetRoles svc rm w name1 domain).rm = rm := by
    simp only [GetRoles]
    split
    · rfl
    · exact hR
  have hGU : (GetUsers svc rm w name1 domain).rm = rm := by
    simp only [GetUsers]
    split
    · rfl
    · exact hU
  have hHL : (HasLink svc rm w name1 name2 domain).rm = rm := by
    simp only [HasLink]
    split
    · rfl
    · rw [GetRoles_nil]
      split <;> exact hR
  rw [hHL, hGR, hGU]
  exact ⟨⟨rfl, rfl⟩, ⟨rfl, rfl⟩, ⟨rfl, rfl⟩, ⟨rfl, rfl⟩, ⟨rfl, rfl⟩, ⟨rfl, rfl⟩, ⟨rfl, rfl⟩⟩

/-! ## Concrete instances -/

/-- C2 at the test tenant: a call with the one domain qualifier "tenant1". -/
theorem domain_rejected_witness :
    ["tenant1"] ≠ [] ∧
    HasLink tenantService tenantRoleManager initialWorld "bob@test.com" "Admin" ["tenant1"] =
        { ret := (false, some (errorsNew "error: domain should not be used")),
          rm := tenantRoleManager, world := initialWorld } ∧
      GetRoles tenantService tenantRoleManager initialWorld "bob@test.com" ["tenant1"] =
        { ret := (none, some (errorsNew "error: domain should not be used")),
          rm := tenantRoleManager, world := initialWorld } ∧
      GetUsers tenantService tenantRoleManager initialWorld "bob@test.com" ["tenant1"] =
        { ret := (none, some (errorsNew "error: domain should not be used")),
          rm := tenantRoleManager, world := initialWorld } :=
  ⟨by decide,
    domain_rejected tenantService tenantRoleManager initialWorld "bob@test.com" "Admin"
      ["tenant1"] (by decide)⟩

/-- C3 at the test tenant: "mallory@test.com" is not a key of the table. -/
theorem unresolvable_name_fails_witness :
    tenantRoleManager.nameToIDMap.get "mallory@test.com" = none ∧
    (GetRoles tenantService tenantRoleManager initialWorld "mallory@test.com" []).ret =
      (none, some (errorsNew "ID not found for the user")) ∧
    (GetUsers tenantService tenantRoleManager initialWorld "mallory@test.com" []).ret =
      (none, some (errorsNew "ID not found for the role")) ∧
    (HasLink tenantService tenantRoleManager initialWorld "mallory@test.com" "Admin" []).ret =
      (false, some (errorsNew "ID not found for the user")) :=
  have key := unresolvable_name_fails tenantService tenantRoleManager initialWorld
    "mallory@test.com" (by decide)
  ⟨by decide, key.1.1, key.2.1.1, (key.2.2 "Admin").1⟩

/-- C4 at the test tenant: `GetRoles(bob)` is [Group1, Admin] and
`GetUsers(Group1)` is [alice, bob]. -/
theorem queries_relay_remote_response_witness :
    tenantRoleManager.nameToIDMap.get "bob@test.com" = some "auth0|bob" ∧
    tenantRoleManager.nameToIDMap.get "Group1" = some "g-group1" ∧
    (GetRoles tenantService tenantRoleManager initialWorld "bob@test.com" []).ret =
      (some ["Group1", "Admin"], none) ∧
    (GetUsers tenantService tenantRoleManager initialWorld "Group1" []).ret =
      (some ["alice@test.com", "bob@test.com"], none) :=
  ⟨by decide, by decide,
    (queries_relay_remote_response tenantService tenantRoleManager initialWorld "bob@test.com"
      "auth0|bob" (by decide)).1 [⟨"g-group1", "Group1"⟩, ⟨"g-admin", "Admin"⟩] (by decide),
    (queries_relay_remote_response tenantService tenantRoleManager initialWorld "Group1"
      "g-group1" (by decide)).2 ⟨tenantUsers⟩ (by decide)⟩

/-- C6 at the test adapter facing a service that answers every request with
"503 Service Unavailable". -/
theorem transport_error_passthrough_witness :
    tenantRoleManager.nameToIDMap.get "bob@test.com" = some "auth0|bob" ∧
    tenantRoleManager.nameToIDMap.get "Group1" = some "g-group1" ∧
    (GetRoles (failingService (errorsNew "503 Service Unavailable")) tenantRoleManager
      initialWorld "bob@test.com" []).ret = (none, some (errorsNew "503 Service Unavailable")) ∧
    (HasLink (failingService (errorsNew "503 Service Unavailable")) tenantRoleManager
      initialWorld "bob@test.com" "Admin" []).ret =
        (false, some (errorsNew "503 Service Unavailable")) ∧
    (GetUsers (failingService (errorsNew "503 Service Unavailable")) tenantRoleManager
      initialWorld "Group1" []).ret = (none, some (errorsNew "503 Service Unavailable")) :=
  have users := (transport_error_passthrough (failingService (errorsNew "503 Service Unavailable"))
    tenantRoleManager initialWorld "bob@test.com" "auth0|bob" (by decide)).1
    (errorsNew "503 Service Unavailable") rfl
  have groups := (transport_error_passthrough (failingService (errorsNew "503 Service Unavailable"))
    tenantRoleManager initialWorld "Group1" "g-group1" (by decide)).2
    (errorsNew "503 Service Unavailable") rfl
  ⟨by decide, by decide, users.1.1, (users.2 "Admin").1, groups.1⟩

/-- C8 as stated fails: two users share the email "carol@test.com", so after
`loadMapping` from empty tables the ID "auth0|1" maps to that email while the
email maps to the other ID. -/
theorem loadMapping_shared_email_not_inverse :
    freshRoleManager.nameToIDMap = [] ∧ freshRoleManager.idToNameMap = [] ∧
    (loadMapping (listingService sharedEmailUsers []) freshRoleManager
      initialWorld).rm.idToNameMap.get "auth0|1" = some "carol@test.com" ∧
    (loadMapping (listingService sharedEmailUsers []) freshRoleManager
      initialWorld).rm.nameToIDMap.get "carol@test.com" = some "google-oauth2|2" ∧
    ¬ MutuallyInverse
      (loadMapping (listingService sharedEmailUsers []) freshRoleManager initialWorld).rm :=
  ⟨rfl, rfl, by decide, by decide,
    fun h => absurd (h.2 "auth0|1" "carol@test.com" (by decide)) (by decide)⟩

/-- C8, amended, at the test tenant, whose two users and two groups have four
names and four IDs; and at the tenant with the shared email, where the later
user wins the email. -/
theorem loadMapping_mutually_inverse_witness :
    freshRoleManager.nameToIDMap = [] ∧ freshRoleManager.idToNameMap = [] ∧
    OneToOne (entries tenantUsers tenantGroups) ∧
    Tracks (loadMapping tenantService freshRoleManager initialWorld).rm
      (entries tenantUsers tenantGroups) ∧
    MutuallyInverse (loadMapping tenantService freshRoleManager initialWorld).rm ∧
    LastWriterWins
      (loadMapping (listingService sharedEmailUsers []) freshRoleManager initialWorld).rm
      (entries sharedEmailUsers []) :=
  have tenant := (loadMapping_mutually_inverse tenantService freshRoleManager initialWorld
    tenantUsers tenantGroups rfl rfl rfl rfl).2 (by decide)
  ⟨rfl, rfl, by decide, tenant.1, tenant.2,
    (loadMapping_mutually_inverse (listingService sharedEmailUsers []) freshRoleManager
      initialWorld sharedEmailUsers [] rfl rfl rfl rfl).1⟩

/-- C9 as stated fails: "Ghost" is not a key of the table, yet `HasLink(bob,
Ghost)` calls the remote service once and returns false with no error. -/
theorem HasLink_unknown_role_reaches_remote :
    tenantRoleManager.nameToIDMap.get "Ghost" = none ∧
    (HasLink tenantService tenantRoleManager initialWorld "bob@test.com" "Ghost" []).ret =
      (false, none) ∧
    remoteCalls
      (HasLink tenantService tenantRoleManager initialWorld "bob@test.com" "Ghost"
        []).world.trace = [Event.usersGetAllGroups ⟨"urn:auth0-authz-api"⟩ "auth0|bob"] ∧
    ¬ NoRemoteCall initialWorld
      (HasLink tenantService tenantRoleManager initialWorld "bob@test.com" "Ghost" []).world :=
  ⟨by decide, by decide, by decide, fun h => absurd h.2 (by decide)⟩

/-- C9, amended, at the test tenant, with the unknown role "Ghost": the unknown
subject "mallory@test.com" fails without a remote call, the known subject
"bob@test.com" gets false with no error after one remote call. -/
theorem HasLink_resolves_subject_only_witness :
    tenantRoleManager.nameToIDMap.get "Ghost" = none ∧
    tenantRoleManager.nameToIDMap.get "mallory@test.com" = none ∧
    tenantRoleManager.nameToIDMap.get "bob@test.com" = some "auth0|bob" ∧
    HasLink tenantService tenantRoleManager initialWorld "mallory@test.com" "Ghost" [] =
      { ret := (false, some (errorsNew "ID not found for the user")), rm := tenantRoleManager,
        world := initialWorld.record (.nameToIDLookup "mallory@test.com") } ∧
    (HasLink tenantService tenantRoleManager initialWorld "bob@test.com" "Ghost" []).ret =
      (false, none) ∧
    remoteCalls
      (HasLink tenantService tenantRoleManager initialWorld "bob@test.com" "Ghost"
        []).world.trace =
      remoteCalls initialWorld.trace ++
        [Event.usersGetAllGroups tenantRoleManager.authzClient "auth0|bob"] :=
  have bob := (HasLink_resolves_subject_only tenantService tenantRoleManager initialWorld
    "bob@test.com" "Ghost").2.1 "auth0|bob" (by decide)
  ⟨by decide, by decide, by decide,
    (HasLink_resolves_subject_only tenantService tenantRoleManager initialWorld
      "mallory@test.com" "Ghost").1 (by decide),
    bob.2.2.2.2 (by decide), bob.2.2.1⟩

end Auth0RoleManager
